import Mathlib

/-!
Verification of the sheet-ingestion and statistics-summary pipeline of
`src/utils/excel_processor.py` (class `ExcelProcessor`).

The embedding models:
* a pandas cell value (`Cell`), series (`Series`, a dtype plus a list of
  cells) and dataframe (`DataFrame`, an ordered list of named columns);
* the cleaning pipeline `_clean_dataframe` (drop all-null rows, drop
  all-null columns, best-effort date/time coercion via
  `pd.to_datetime(..., errors='ignore')`, best-effort numeric coercion via
  `pd.to_numeric(..., errors='ignore')`).  The cell-level parsers of the
  pandas library are not part of the repository, so `pd_to_datetime` and
  `pd_to_numeric` are parameterised by a cell parser `Cell → Option Cell`
  (`none` = the library raises on that cell); with `errors='ignore'` the
  library returns the input series unchanged whenever any cell fails,
  which is exactly the `tryMapCells` match below.  Missing values (NaN /
  NaT / None) are all modelled by `Cell.null`, and pandas conversions map
  missing values to missing values (`parseCellD`);
* the rendered "Statistics" sheet (`renderStats`), cell by cell, with the
  exact row arithmetic of `create_statistics_sheet` (font styling is not
  modelled: no claim mentions it);
* a small filesystem state (`FS`) giving the openpyxl/pandas I/O calls
  (`load_workbook`, `save`, `read_excel`) explicit, fallible semantics so
  that the try/except wrappers of `get_sheet_names`, `load_sheet_data`,
  `create_statistics_sheet` and `has_statistics_sheet` can be stated.
-/

/-- A spreadsheet cell value as pandas sees it: a number, a free-form
string, a date/time value (an abstract timestamp), or a missing value
(NaN / NaT / None). -/
inductive Cell where
  | null : Cell
  | num : ℚ → Cell
  | str : String → Cell
  | date : Int → Cell
deriving DecidableEq

/-- The dtype of a pandas series: numeric (`select_dtypes(['number'])`),
datetime64, or `object` (free-form text). -/
inductive Dtype where
  | numeric : Dtype
  | datetime : Dtype
  | object : Dtype
deriving DecidableEq

/-- A pandas series: a dtype together with its cells. -/
structure Series where
  dtype : Dtype
  cells : List Cell
deriving DecidableEq

/-- A named dataframe column. -/
structure Column where
  name : String
  series : Series
deriving DecidableEq

/-- A dataframe: an ordered list of named columns. -/
abbrev DataFrame := List Column

/-- Is this cell a missing value? -/
def isNullCell : Cell → Bool
  | Cell.null => true
  | _ => false

/-- Is this cell a numeric value? -/
def isNumCell : Cell → Bool
  | Cell.num _ => true
  | _ => false

/-- `len(df)`: the number of rows (the length of the columns; pandas keeps
all columns the same length). -/
def nrows : DataFrame → Nat
  | [] => 0
  | c :: _ => c.series.cells.length

/-- Row `i` of the dataframe is entirely null (`dropna(how='all')`'s
per-row test).  Out-of-range cells read as null. -/
def rowAllNull (df : DataFrame) (i : Nat) : Bool :=
  df.all fun c => isNullCell (c.series.cells.getD i Cell.null)

/-- The indices of the rows `dropna(how='all')` keeps: those with at
least one non-null cell. -/
def keepRows (df : DataFrame) : List Nat :=
  (List.range (nrows df)).filter fun i => !rowAllNull df i

/-- `df.dropna(how='all')`: keep exactly the rows that have at least one
non-null cell. -/
def dropRowsAllNull (df : DataFrame) : DataFrame :=
  df.map fun c =>
    ⟨c.name, ⟨c.series.dtype, (keepRows df).map fun i => c.series.cells.getD i Cell.null⟩⟩

/-- The column is entirely null (`dropna(axis=1, how='all')`'s per-column
test). -/
def colAllNull (c : Column) : Bool :=
  c.series.cells.all isNullCell

/-- `df.dropna(axis=1, how='all')`: keep exactly the columns that have at
least one non-null cell. -/
def dropColsAllNull (df : DataFrame) : DataFrame :=
  df.filter fun c => !colAllNull c

/-- Lift a cell parser over missing values: pandas conversions keep NaN /
None as missing (NaN under `to_numeric`, NaT under `to_datetime`) and only
run the real parser on non-null cells. -/
def parseCellD (f : Cell → Option Cell) : Cell → Option Cell
  | Cell.null => some Cell.null
  | c => f c

/-- Try to parse every cell; `none` as soon as any single cell fails.
This is the all-cells-or-fail behaviour of the pandas converters. -/
def tryMapCells (f : Cell → Option Cell) : List Cell → Option (List Cell)
  | [] => some []
  | c :: cs =>
    match f c, tryMapCells f cs with
    | some c', some cs' => some (c' :: cs')
    | _, _ => none

/-- `pd.to_datetime(s, errors='ignore')` over cell parser `p`: if every
cell parses, the series becomes datetime-typed with the parsed cells;
if any cell fails to parse, the input series is returned unchanged. -/
def pd_to_datetime (p : Cell → Option Cell) (s : Series) : Series :=
  match tryMapCells (parseCellD p) s.cells with
  | some cs => ⟨Dtype.datetime, cs⟩
  | none => s

/-- `pd.to_numeric(s, errors='ignore')` over cell parser `q`: if every
cell parses, the series becomes numeric-typed with the parsed cells; if
any cell fails to parse, the input series is returned unchanged. -/
def pd_to_numeric (q : Cell → Option Cell) (s : Series) : Series :=
  match tryMapCells (parseCellD q) s.cells with
  | some cs => ⟨Dtype.numeric, cs⟩
  | none => s

/-- Does the first character list start the second? -/
def isPrefixList : List Char → List Char → Bool
  | [], _ => true
  | _ :: _, [] => false
  | a :: as, b :: bs => a == b && isPrefixList as bs

/-- Python `pat in s` on character lists: `pat` occurs as a contiguous
substring of `s`. -/
def containsSub (pat : List Char) : List Char → Bool
  | [] => pat.isEmpty
  | a :: rest => isPrefixList pat (a :: rest) || containsSub pat rest

/-- `'date' in col.lower() or 'time' in col.lower()`: the column name
contains the substring "date" or "time", case-insensitively. -/
def isDateName (name : String) : Bool :=
  containsSub "date".data (name.data.map Char.toLower)
    || containsSub "time".data (name.data.map Char.toLower)

/-- One iteration of the date-conversion loop of `_clean_dataframe`:
`if 'date' in col.lower() or 'time' in col.lower():
   df[col] = pd.to_datetime(df[col], errors='ignore')`. -/
def dateColStep (p : Cell → Option Cell) (c : Column) : Column :=
  if isDateName c.name then ⟨c.name, pd_to_datetime p c.series⟩ else c

/-- One iteration of the numeric-conversion loop of `_clean_dataframe`:
`if df[col].dtype == 'object':
   numeric_series = pd.to_numeric(df[col], errors='ignore')
   if not numeric_series.equals(df[col]): df[col] = numeric_series`.
`Series.equals` compares dtype and cells, which is `=` on `Series`. -/
def numColStep (q : Cell → Option Cell) (c : Column) : Column :=
  if c.series.dtype = Dtype.object then
    let ns := pd_to_numeric q c.series
    if ns = c.series then c else ⟨c.name, ns⟩
  else c

/-- `ExcelProcessor._clean_dataframe`: drop all-null rows, then all-null
columns, then run the date loop over every column, then the numeric loop
over every column.  (Each loop iteration touches one column only, so the
loops are `List.map`s.) -/
def _clean_dataframe (p q : Cell → Option Cell) (df : DataFrame) : DataFrame :=
  let df1 := dropColsAllNull (dropRowsAllNull df)
  let df2 := df1.map (dateColStep p)
  df2.map (numColStep q)

/-- `df[col].count()`: the number of non-null cells. -/
def nonNullCount (s : Series) : Nat :=
  s.cells.countP fun x => !isNullCell x

/-- The numeric values of a series (the float array pandas aggregates
over; in a numeric-typed column these are exactly the non-null cells). -/
def numericVals (s : Series) : List ℚ :=
  s.cells.filterMap fun x =>
    match x with
    | Cell.num v => some v
    | _ => none

/-- `s.sum()` over the non-null numeric values. -/
def listSum (l : List ℚ) : ℚ := l.foldl (· + ·) 0

/-- `s.min()` over the non-null numeric values (0 on an empty list; the
code never reads that branch because of its `count() > 0` guard). -/
def listMin : List ℚ → ℚ
  | [] => 0
  | v :: vs => vs.foldl min v

/-- `s.max()` over the non-null numeric values (0 on an empty list). -/
def listMax : List ℚ → ℚ
  | [] => 0
  | v :: vs => vs.foldl max v

/-- `s.mean()`: the sum of the non-null numeric values divided by their
count. -/
def seriesMean (s : Series) : ℚ :=
  listSum (numericVals s) / ((numericVals s).length : ℚ)

/-- Python `round(x, 2)`: round to 2 decimal places.  (Exact halves are
rounded up here, where Python rounds float ties to even; floats are
modelled as exact rationals and no claim depends on tie cells.) -/
def round2 (x : ℚ) : ℚ :=
  ((round (x * 100) : ℤ) : ℚ) / 100

/-- A value written into a sheet cell: a string label or a number. -/
inductive SVal where
  | str : String → SVal
  | num : ℚ → SVal
deriving DecidableEq

/-- The content of a rendered sheet: the list of writes
`((column letter, row number), value)` in program order. -/
abbrev SheetCells := List ((String × Nat) × SVal)

/-- `df.select_dtypes(include=['number']).columns`: the numeric-typed
columns, in dataframe order. -/
def numericCols (df : DataFrame) : List Column :=
  df.filter fun c => decide (c.series.dtype = Dtype.numeric)

/-- The guard of the per-column statistics loop:
`col in selected_columns or not selected_columns`. -/
def includeCol (selected : List String) (name : String) : Bool :=
  decide (name ∈ selected) || decide (selected = [])

/-- The bullet list `for col in selected_columns: sheet[A{row}] = "• col"`,
starting at row `r` and advancing one row per entry. -/
def bulletCells : List String → Nat → SheetCells
  | [], _ => []
  | s :: ss, r => (("A", r), SVal.str ("• " ++ s)) :: bulletCells ss (r + 1)

/-- The six cells of one numeric-statistics data row, exactly as
`create_statistics_sheet` writes them: name, count, mean rounded to two
decimals, min, max, sum, the last four zero when the non-null count is
zero. -/
def statLine (c : Column) (r : Nat) : SheetCells :=
  [(("A", r), SVal.str c.name),
   (("B", r), SVal.num (nonNullCount c.series : ℚ)),
   (("C", r), SVal.num (if 0 < nonNullCount c.series then round2 (seriesMean c.series) else 0)),
   (("D", r), SVal.num (if 0 < nonNullCount c.series then listMin (numericVals c.series) else 0)),
   (("E", r), SVal.num (if 0 < nonNullCount c.series then listMax (numericVals c.series) else 0)),
   (("F", r), SVal.num (if 0 < nonNullCount c.series then listSum (numericVals c.series) else 0))]

/-- The statistics loop `for col in numeric_cols: if col in selected or
not selected: row += 1; <write statLine>`.  Returns the written cells and
the final value of `row`. -/
def statLines (selected : List String) : List Column → Nat → SheetCells × Nat
  | [], r => ([], r)
  | c :: cs, r =>
    if includeCol selected c.name then
      let rest := statLines selected cs (r + 1)
      (statLine c (r + 1) ++ rest.1, rest.2)
    else statLines selected cs r

/-- The header row `Column / Count / Mean / Min / Max / Sum`. -/
def headerRow (r : Nat) : SheetCells :=
  [(("A", r), SVal.str "Column"), (("B", r), SVal.str "Count"),
   (("C", r), SVal.str "Mean"), (("D", r), SVal.str "Min"),
   (("E", r), SVal.str "Max"), (("F", r), SVal.str "Sum")]

/-- The full content of the "Statistics" sheet written by
`create_statistics_sheet`, with the source's exact row arithmetic:
title at A1, selection header at A3, bullets from row 4, basic statistics
at rows `len+6 .. len+8` (`len = len(selected_columns)`), then — only when
the dataframe has at least one numeric column — the numeric-statistics
title, header row and data rows, then the two trailing notes. -/
def renderStats (data : DataFrame) (selected : List String) : SheetCells :=
  let r1 := 4 + selected.length
  let ncols := numericCols data
  let sb := statLines selected ncols (r1 + 7)
  let rEnd := if 0 < ncols.length then sb.2 else r1 + 4
  [(("A", 1), SVal.str "Construction Project Statistics"),
   (("A", 3), SVal.str "Selected Columns for Analysis:")]
  ++ bulletCells selected 4
  ++ [(("A", r1 + 2), SVal.str "Basic Statistics:"),
      (("A", r1 + 3), SVal.str "Total Records:"),
      (("B", r1 + 3), SVal.num (nrows data : ℚ)),
      (("A", r1 + 4), SVal.str "Total Columns:"),
      (("B", r1 + 4), SVal.num (data.length : ℚ))]
  ++ (if 0 < ncols.length then
        (("A", r1 + 6), SVal.str "Numeric Column Statistics:")
          :: headerRow (r1 + 7) ++ sb.1
      else [])
  ++ [(("A", rEnd + 3), SVal.str "Note: Graphs are generated in the web application based on selected columns."),
      (("A", rEnd + 4), SVal.str "Use the PowerPoint export feature to generate presentation slides.")]

/-- An openpyxl workbook: an ordered list of named sheets.  (openpyxl
keeps sheet names unique within a workbook.) -/
structure Workbook where
  sheets : List (String × SheetCells)
deriving DecidableEq

/-- The filesystem / library-failure state the operations run against:
the workbook files on disk, the raw dataframes `pd.read_excel` would
produce per (path, sheet), and whether reads / writes succeed (a corrupt
or locked file makes the corresponding library call raise). -/
structure FS where
  files : List (String × Workbook)
  sheetData : List ((String × String) × DataFrame)
  readOk : Bool
  writeOk : Bool
deriving DecidableEq

/-- Look a path up among the files on disk. -/
def lookupFile : List (String × Workbook) → String → Option Workbook
  | [], _ => none
  | (p, wb) :: rest, q => if p = q then some wb else lookupFile rest q

/-- Overwrite (or create) the file at a path. -/
def setFile (l : List (String × Workbook)) (p : String) (wb : Workbook) :
    List (String × Workbook) :=
  (p, wb) :: l.filter fun e => decide (e.1 ≠ p)

/-- Look up the raw dataframe `pd.read_excel` would parse from a sheet. -/
def lookupSheetData : List ((String × String) × DataFrame) → String → String → Option DataFrame
  | [], _, _ => none
  | ((p, s), df) :: rest, p', s' =>
    if p = p' ∧ s = s' then some df else lookupSheetData rest p' s'

/-- `openpyxl.load_workbook(path)`: raises unless the file exists and is
readable. -/
def loadWorkbook (fs : FS) (path : String) : Except String Workbook :=
  if fs.readOk then
    match lookupFile fs.files path with
    | some wb => Except.ok wb
    | none => Except.error "file not found"
  else Except.error "read error"

/-- `workbook.save(path)`: raises unless the path is writable; on success
the file on disk is replaced. -/
def saveWorkbook (fs : FS) (path : String) (wb : Workbook) : Except String FS :=
  if fs.writeOk then Except.ok { fs with files := setFile fs.files path wb }
  else Except.error "write error"

/-- `pd.read_excel(path, sheet_name)`: raises unless the file is readable
and the sheet exists. -/
def read_excel (fs : FS) (path sheet : String) : Except String DataFrame :=
  if fs.readOk then
    match lookupSheetData fs.sheetData path sheet with
    | some df => Except.ok df
    | none => Except.error "sheet not found"
  else Except.error "read error"

/-- `ExcelProcessor.get_sheet_names`: the workbook's sheet names in
workbook order; on any exception, `[]`. -/
def get_sheet_names (fs : FS) (path : String) : List String :=
  match loadWorkbook fs path with
  | Except.ok wb => wb.sheets.map Prod.fst
  | Except.error _ => []

/-- `ExcelProcessor.load_sheet_data`: read the sheet and clean it; on any
exception, `None`. -/
def load_sheet_data (p q : Cell → Option Cell) (fs : FS) (path sheet : String) :
    Option DataFrame :=
  match read_excel fs path sheet with
  | Except.ok df => some (_clean_dataframe p q df)
  | Except.error _ => none

/-- The workbook mutation of `create_statistics_sheet`: delete the
existing "Statistics" sheet if there is one, then append a fresh
"Statistics" sheet with the rendered content. -/
def updateWb (wb : Workbook) (data : DataFrame) (selected : List String) : Workbook :=
  ⟨(if "Statistics" ∈ wb.sheets.map Prod.fst then
      wb.sheets.filter fun s => decide (s.1 ≠ "Statistics")
    else wb.sheets)
   ++ [("Statistics", renderStats data selected)]⟩

/-- `ExcelProcessor.create_statistics_sheet`: open the workbook, replace
the "Statistics" sheet, save in place; `True` on success, and any
exception is caught and turned into `False`. -/
def create_statistics_sheet (fs : FS) (path : String) (data : DataFrame)
    (selected : List String) : FS × Bool :=
  match loadWorkbook fs path with
  | Except.error _ => (fs, false)
  | Except.ok wb =>
    match saveWorkbook fs path (updateWb wb data selected) with
    | Except.error _ => (fs, false)
    | Except.ok fs' => (fs', true)

/-- `ExcelProcessor.has_statistics_sheet`:
`'Statistics' in self.get_sheet_names(file_path)`. -/
def has_statistics_sheet (fs : FS) (path : String) : Bool :=
  decide ("Statistics" ∈ get_sheet_names fs path)

/-- The number of sheets named `nm` in a workbook. -/
def countSheetsNamed (wb : Workbook) (nm : String) : Nat :=
  (wb.sheets.filter fun s => decide (s.1 = nm)).length

/-- The content of the sheet named `nm`, if any. -/
def getSheet (wb : Workbook) (nm : String) : Option SheetCells :=
  (wb.sheets.find? fun s => decide (s.1 = nm)).map Prod.snd

/-- Two series have the same length and the same pattern of missing
values (out-of-range positions read as missing). -/
def NullSame (s t : Series) : Prop :=
  t.cells.length = s.cells.length
  ∧ ∀ i, isNullCell (t.cells.getD i Cell.null) = isNullCell (s.cells.getD i Cell.null)

/-- A cell parser never turns a present value into a missing one: it
either produces a present value or fails.  (pandas `to_numeric` /
`to_datetime` with `errors='ignore'` report a cell they cannot convert by
raising, which the surrounding series conversion turns into "series
unchanged".) -/
def PreservesNonNull (f : Cell → Option Cell) : Prop :=
  ∀ x y, f x = some y → x ≠ Cell.null → y ≠ Cell.null

/-- Numeric-typed columns hold only numbers and missing values. -/
def NumColWF (c : Column) : Prop :=
  ∀ x ∈ c.series.cells, (isNullCell x || isNumCell x) = true

/-- A sample date/time cell parser (stands in for the pandas datetime
parser in concrete evaluations). -/
def pSample : Cell → Option Cell
  | Cell.null => some Cell.null
  | Cell.num _ => some (Cell.date 0)
  | Cell.str s => if s = "2024-01-05" then some (Cell.date 19727) else none
  | Cell.date d => some (Cell.date d)

/-- A sample numeric cell parser (stands in for the pandas numeric parser
in concrete evaluations). -/
def qSample : Cell → Option Cell
  | Cell.null => some Cell.null
  | Cell.num v => some (Cell.num v)
  | Cell.str s => if s = "1000" then some (Cell.num 1000) else none
  | Cell.date _ => none

/-- Concrete fixture: a numeric column with one value and one missing
cell. -/
def statColW : Column := ⟨"Cost", ⟨Dtype.numeric, [Cell.num 1000, Cell.null]⟩⟩

/-- Concrete fixture: a date-named text column in which one cell fails to
parse under `pSample`. -/
def dateColW : Column :=
  ⟨"StartDate", ⟨Dtype.object, [Cell.str "2024-01-05", Cell.str "bad", Cell.null]⟩⟩

/-- Concrete fixture: a text column on which numeric conversion fails (a
no-op under `errors='ignore'`). -/
def textColW : Column := ⟨"Task", ⟨Dtype.object, [Cell.str "Foundation", Cell.null]⟩⟩

/-- Concrete fixture: a text column that converts fully to numbers. -/
def numTextColW : Column := ⟨"Price", ⟨Dtype.object, [Cell.str "1000", Cell.null]⟩⟩

/-- Concrete fixture: a small raw dataframe whose last two rows are
entirely null. -/
def dfW : DataFrame :=
  [⟨"Task", ⟨Dtype.object, [Cell.str "Foundation", Cell.null, Cell.null]⟩⟩,
   ⟨"Cost", ⟨Dtype.numeric, [Cell.num 1000, Cell.null, Cell.null]⟩⟩]

/-- Concrete fixture: the first column of `dfW` after cleaning (the two
all-null rows dropped). -/
def cleanColW : Column := ⟨"Task", ⟨Dtype.object, [Cell.str "Foundation"]⟩⟩

/-- Concrete fixture: a one-sheet workbook on disk. -/
def wbW : Workbook := ⟨[("Sheet1", [])]⟩

/-- Concrete fixture: a healthy filesystem holding `wbW`. -/
def fsW : FS := ⟨[("book.xlsx", wbW)], [(("book.xlsx", "Sheet1"), dfW)], true, true⟩

/-- Concrete fixture: a filesystem whose reads fail. -/
def fsBad : FS := ⟨[("book.xlsx", wbW)], [(("book.xlsx", "Sheet1"), dfW)], false, true⟩

/-! ## Helper lemmas: the workbook / filesystem level -/

lemma lookupFile_setFile_self (l : List (String × Workbook)) (p : String) (wb : Workbook) :
    lookupFile (setFile l p wb) p = some wb := by
  simp [setFile, lookupFile]

lemma loadWorkbook_isOk_iff (fs : FS) (path : String) :
    (loadWorkbook fs path).isOk = true ↔
      fs.readOk = true ∧ (lookupFile fs.files path).isSome = true := by
  unfold loadWorkbook
  by_cases hr : fs.readOk
  · cases hl : lookupFile fs.files path <;> simp [hr, hl, Except.isOk, Except.toBool]
  · simp [hr, Except.isOk, Except.toBool]

lemma create_snd_eq (fs : FS) (path : String) (data : DataFrame) (sel : List String) :
    (create_statistics_sheet fs path data sel).2
      = (fs.readOk && (lookupFile fs.files path).isSome && fs.writeOk) := by
  unfold create_statistics_sheet loadWorkbook saveWorkbook
  by_cases hr : fs.readOk
  · cases hl : lookupFile fs.files path
    · simp [hr, hl]
    · by_cases hw : fs.writeOk <;> simp [hr, hl, hw]
  · simp [hr]

lemma create_true_elim {fs fs' : FS} {path : String} {data : DataFrame}
    {sel : List String}
    (h : create_statistics_sheet fs path data sel = (fs', true)) :
    ∃ wb, lookupFile fs.files path = some wb ∧ fs.readOk = true ∧ fs.writeOk = true ∧
      fs' = { fs with files := setFile fs.files path (updateWb wb data sel) } := by
  revert h
  unfold create_statistics_sheet loadWorkbook saveWorkbook
  by_cases hr : fs.readOk
  · cases hl : lookupFile fs.files path
    · simp [hr, hl]
    · by_cases hw : fs.writeOk
      · intro h
        refine ⟨_, rfl, hr, hw, ?_⟩
        simpa [hr, hl, hw] using (congrArg Prod.fst h).symm
      · simp [hr, hl, hw]
  · simp [hr]

lemma filter_stat_eq_nil_of_not_mem {l : List (String × SheetCells)}
    (h : "Statistics" ∉ l.map Prod.fst) :
    l.filter (fun s => decide (s.1 = "Statistics")) = [] := by
  rw [List.filter_eq_nil_iff]
  intro a ha
  simp only [decide_eq_true_eq]
  intro he
  exact h (List.mem_map.mpr ⟨a, ha, he⟩)

lemma countSheetsNamed_updateWb (wb : Workbook) (data : DataFrame) (sel : List String) :
    countSheetsNamed (updateWb wb data sel) "Statistics" = 1 := by
  unfold countSheetsNamed updateWb
  by_cases h : "Statistics" ∈ wb.sheets.map Prod.fst
  · simp only [h, if_true, List.filter_append, List.filter_filter]
    have hnil : wb.sheets.filter
        (fun s => decide (s.1 = "Statistics") && decide (s.1 ≠ "Statistics")) = [] := by
      rw [List.filter_eq_nil_iff]
      intro a _
      by_cases he : a.1 = "Statistics" <;> simp [he]
    rw [hnil]
    simp
  · simp only [h, if_false, List.filter_append]
    rw [filter_stat_eq_nil_of_not_mem h]
    simp

lemma find?_append_of_all_false {α : Type} {p : α → Bool} {l₁ l₂ : List α}
    (h : ∀ a ∈ l₁, p a = false) : (l₁ ++ l₂).find? p = l₂.find? p := by
  induction l₁ with
  | nil => simp
  | cons a l ih =>
    have ha := h a (List.mem_cons_self a l)
    simp only [List.cons_append, List.find?, ha]
    exact ih fun b hb => h b (List.mem_cons_of_mem a hb)

lemma getSheet_updateWb (wb : Workbook) (data : DataFrame) (sel : List String) :
    getSheet (updateWb wb data sel) "Statistics" = some (renderStats data sel) := by
  unfold getSheet updateWb
  have hfind : ∀ l : List (String × SheetCells),
      (∀ a ∈ l, decide (a.1 = "Statistics") = false) →
      (l ++ [("Statistics", renderStats data sel)]).find?
          (fun s => decide (s.1 = "Statistics"))
        = some ("Statistics", renderStats data sel) := by
    intro l hl
    rw [find?_append_of_all_false hl]
    simp [List.find?]
  by_cases h : "Statistics" ∈ wb.sheets.map Prod.fst
  · simp only [h, if_true]
    rw [hfind]
    · rfl
    · intro a ha
      have := (List.mem_filter.mp ha).2
      simp only [decide_eq_true_eq] at this ⊢
      exact decide_eq_false this
  · simp only [h, if_false]
    rw [hfind]
    · rfl
    · intro a ha
      apply decide_eq_false
      intro he
      exact h (List.mem_map.mpr ⟨a, ha, he⟩)

lemma mem_sheetnames_updateWb (wb : Workbook) (data : DataFrame) (sel : List String) :
    "Statistics" ∈ (updateWb wb data sel).sheets.map Prod.fst := by
  unfold updateWb
  simp

lemma has_statistics_sheet_after_create {fs fs' : FS} {path : String}
    {data : DataFrame} {sel : List String}
    (h : create_statistics_sheet fs path data sel = (fs', true)) :
    has_statistics_sheet fs' path = true := by
  obtain ⟨wb, _, hr, _, hfs'⟩ := create_true_elim h
  subst hfs'
  unfold has_statistics_sheet get_sheet_names loadWorkbook
  simp only [hr, if_true, lookupFile_setFile_self]
  simpa using mem_sheetnames_updateWb wb data sel

/-! ## Claims about the I/O wrappers (C3, C7, C8, C9) -/

/-- C7: `create_statistics_sheet` returns `True` exactly when every step
(open the workbook, rebuild the "Statistics" sheet, save in place)
completes without error, and any failing step is caught and turned into
the return value `False` — the function is total and never propagates an
exception. -/
theorem create_statistics_sheet_true_iff_all_steps_ok
    (fs : FS) (path : String) (data : DataFrame) (sel : List String) :
    ((create_statistics_sheet fs path data sel).2 = true ↔
      ((loadWorkbook fs path).isOk = true ∧ fs.writeOk = true))
    ∧ ((create_statistics_sheet fs path data sel).2 = false ↔
      ((loadWorkbook fs path).isOk = false ∨ fs.writeOk = false)) := by
  by_cases hr : fs.readOk <;> by_cases hw : fs.writeOk <;>
    cases hl : lookupFile fs.files path <;>
    simp [create_snd_eq, hr, hw, hl, loadWorkbook, Except.isOk, Except.toBool]

/-- C8: the read operations fail softly: whenever opening the workbook
raises, `get_sheet_names` returns `[]`, and whenever reading the sheet
raises, `load_sheet_data` returns `None` (and `None` arises only from a
read failure).  Both functions are total, so no exception ever reaches
the caller. -/
theorem read_operations_fail_softly
    (p q : Cell → Option Cell) (fs g : FS) (path pth sheet : String) :
    ((loadWorkbook fs path).isOk = false → get_sheet_names fs path = [])
    ∧ ((read_excel g pth sheet).isOk = false →
        load_sheet_data p q g pth sheet = none)
    ∧ (load_sheet_data p q g pth sheet = none ↔
        (read_excel g pth sheet).isOk = false) := by
  refine ⟨?_, ?_, ?_⟩
  · intro h
    unfold get_sheet_names
    cases hl : loadWorkbook fs path with
    | ok wb => rw [hl] at h; simp [Except.isOk, Except.toBool] at h
    | error e => rfl
  · intro h
    unfold load_sheet_data
    cases hl : read_excel g pth sheet with
    | ok df => rw [hl] at h; simp [Except.isOk, Except.toBool] at h
    | error e => rfl
  · unfold load_sheet_data
    cases hl : read_excel g pth sheet <;> simp [Except.isOk, Except.toBool]

/-- C9: `has_statistics_sheet` is true exactly when `get_sheet_names`
lists "Statistics"; on a read error it is false (the sheet-name list is
then empty); and a successful `create_statistics_sheet` followed by
`has_statistics_sheet` on the same path yields true. -/
theorem has_statistics_sheet_spec
    (fs fs' g : FS) (path pth : String) (data : DataFrame) (sel : List String) :
    (create_statistics_sheet fs path data sel = (fs', true) →
      has_statistics_sheet fs' path = true)
    ∧ (has_statistics_sheet g pth = true ↔ "Statistics" ∈ get_sheet_names g pth)
    ∧ ((loadWorkbook g pth).isOk = false → has_statistics_sheet g pth = false) := by
  refine ⟨fun h => has_statistics_sheet_after_create h, ?_, ?_⟩
  · simp [has_statistics_sheet]
  · intro h
    unfold has_statistics_sheet get_sheet_names
    cases hl : loadWorkbook g pth with
    | ok wb => rw [hl] at h; simp [Except.isOk, Except.toBool] at h
    | error e => simp

/-- C3: after any successful `create_statistics_sheet`, the workbook on
disk contains exactly one sheet named "Statistics" (the pre-existing one,
if any, was deleted, not merged); two successive successful calls leave
exactly one "Statistics" sheet whose content is the second call's
rendering. -/
theorem statistics_sheet_unique_after_write
    (fs fs₁ fs₂ : FS) (path : String) (d₁ d₂ : DataFrame)
    (s₁ s₂ : List String) :
    (create_statistics_sheet fs path d₁ s₁ = (fs₁, true) →
      ∃ wb, lookupFile fs₁.files path = some wb
        ∧ countSheetsNamed wb "Statistics" = 1
        ∧ getSheet wb "Statistics" = some (renderStats d₁ s₁))
    ∧ (create_statistics_sheet fs path d₁ s₁ = (fs₁, true) →
       create_statistics_sheet fs₁ path d₂ s₂ = (fs₂, true) →
      ∃ wb, lookupFile fs₂.files path = some wb
        ∧ countSheetsNamed wb "Statistics" = 1
        ∧ getSheet wb "Statistics" = some (renderStats d₂ s₂)) := by
  constructor
  · intro h
    obtain ⟨wb, _, _, _, hfs⟩ := create_true_elim h
    subst hfs
    exact ⟨updateWb wb d₁ s₁, lookupFile_setFile_self _ _ _,
      countSheetsNamed_updateWb wb d₁ s₁, getSheet_updateWb wb d₁ s₁⟩
  · intro _ h2
    obtain ⟨wb, _, _, _, hfs⟩ := create_true_elim h2
    subst hfs
    exact ⟨updateWb wb d₂ s₂, lookupFile_setFile_self _ _ _,
      countSheetsNamed_updateWb wb d₂ s₂, getSheet_updateWb wb d₂ s₂⟩

/-! ## Helper lemmas: statistics values -/

lemma foldl_min_le_init : ∀ (xs : List ℚ) (a : ℚ), xs.foldl min a ≤ a := by
  intro xs
  induction xs with
  | nil => intro a; exact le_refl a
  | cons x xs ih =>
    intro a
    exact le_trans (ih (min a x)) (min_le_left a x)

lemma foldl_min_le_mem : ∀ (xs : List ℚ) (a y : ℚ), y ∈ xs → xs.foldl min a ≤ y := by
  intro xs
  induction xs with
  | nil => intro a y hy; cases hy
  | cons x xs ih =>
    intro a y hy
    rcases List.mem_cons.mp hy with rfl | hy'
    · exact le_trans (foldl_min_le_init xs (min a y)) (min_le_right a y)
    · exact ih (min a x) y hy'

lemma foldl_min_choice : ∀ (xs : List ℚ) (a : ℚ), xs.foldl min a = a ∨ xs.foldl min a ∈ xs := by
  intro xs
  induction xs with
  | nil => intro a; exact Or.inl rfl
  | cons x xs ih =>
    intro a
    rcases ih (min a x) with h | h
    · rcases min_choice a x with hm | hm
      · exact Or.inl (h.trans hm)
      · refine Or.inr ?_
        simp only [List.foldl_cons]
        rw [h, hm]
        exact List.mem_cons_self x xs
    · exact Or.inr (List.mem_cons_of_mem x h)

lemma foldl_max_le_init : ∀ (xs : List ℚ) (a : ℚ), a ≤ xs.foldl max a := by
  intro xs
  induction xs with
  | nil => intro a; exact le_refl a
  | cons x xs ih =>
    intro a
    exact le_trans (le_max_left a x) (ih (max a x))

lemma foldl_max_le_mem : ∀ (xs : List ℚ) (a y : ℚ), y ∈ xs → y ≤ xs.foldl max a := by
  intro xs
  induction xs with
  | nil => intro a y hy; cases hy
  | cons x xs ih =>
    intro a y hy
    rcases List.mem_cons.mp hy with rfl | hy'
    · exact le_trans (le_max_right a y) (foldl_max_le_init xs (max a y))
    · exact ih (max a x) y hy'

lemma foldl_max_choice : ∀ (xs : List ℚ) (a : ℚ), xs.foldl max a = a ∨ xs.foldl max a ∈ xs := by
  intro xs
  induction xs with
  | nil => intro a; exact Or.inl rfl
  | cons x xs ih =>
    intro a
    rcases ih (max a x) with h | h
    · rcases max_choice a x with hm | hm
      · exact Or.inl (h.trans hm)
      · refine Or.inr ?_
        simp only [List.foldl_cons]
        rw [h, hm]
        exact List.mem_cons_self x xs
    · exact Or.inr (List.mem_cons_of_mem x h)

lemma listMin_mem {l : List ℚ} (h : l ≠ []) : listMin l ∈ l := by
  cases l with
  | nil => exact absurd rfl h
  | cons v vs =>
    rcases foldl_min_choice vs v with hc | hc
    · simp only [listMin]
      rw [hc]
      exact List.mem_cons_self v vs
    · exact List.mem_cons_of_mem v hc

lemma listMin_le {l : List ℚ} {y : ℚ} (hy : y ∈ l) : listMin l ≤ y := by
  cases l with
  | nil => cases hy
  | cons v vs =>
    rcases List.mem_cons.mp hy with rfl | hy'
    · exact foldl_min_le_init vs y
    · exact foldl_min_le_mem vs v y hy'

lemma listMax_mem {l : List ℚ} (h : l ≠ []) : listMax l ∈ l := by
  cases l with
  | nil => exact absurd rfl h
  | cons v vs =>
    rcases foldl_max_choice vs v with hc | hc
    · simp only [listMax]
      rw [hc]
      exact List.mem_cons_self v vs
    · exact List.mem_cons_of_mem v hc

lemma listMax_le {l : List ℚ} {y : ℚ} (hy : y ∈ l) : y ≤ listMax l := by
  cases l with
  | nil => cases hy
  | cons v vs =>
    rcases List.mem_cons.mp hy with rfl | hy'
    · exact foldl_max_le_init vs y
    · exact foldl_max_le_mem vs v y hy'

lemma countP_nonNull_eq_numeric_length :
    ∀ (l : List Cell), (∀ x ∈ l, (isNullCell x || isNumCell x) = true) →
      (l.countP fun x => !isNullCell x)
        = (l.filterMap fun x =>
            match x with
            | Cell.num v => some v
            | _ => none).length := by
  intro l
  induction l with
  | nil => intro _; rfl
  | cons x xs ih =>
    intro h
    have hx := h x (List.mem_cons_self x xs)
    have hxs := fun y hy => h y (List.mem_cons_of_mem x hy)
    cases x with
    | null => simpa [List.countP_cons, isNullCell] using ih hxs
    | num v => simpa [List.countP_cons, isNullCell, isNumCell] using ih hxs
    | str s => simp [isNullCell, isNumCell] at hx
    | date d => simp [isNullCell, isNumCell] at hx

lemma nonNullCount_eq_numericVals_length {c : Column} (h : NumColWF c) :
    nonNullCount c.series = (numericVals c.series).length :=
  countP_nonNull_eq_numeric_length c.series.cells h

/-- C2: the six values of a numeric-statistics data row.  For a
well-formed numeric column the emitted count is the number of non-null
values, the mean is their sum divided by their count and then rounded to
two decimal places, min and max are a least and a greatest element of the
non-null values, the sum is their sum — and all four aggregate cells hold
0 when the non-null count is 0. -/
theorem numeric_stats_row_values (c : Column) (r : Nat) (h : NumColWF c) :
    nonNullCount c.series = (numericVals c.series).length
    ∧ statLine c r =
      [(("A", r), SVal.str c.name),
       (("B", r), SVal.num ((numericVals c.series).length : ℚ)),
       (("C", r), SVal.num (if 0 < (numericVals c.series).length then
          round2 (listSum (numericVals c.series) / ((numericVals c.series).length : ℚ))
        else 0)),
       (("D", r), SVal.num (if 0 < (numericVals c.series).length then
          listMin (numericVals c.series) else 0)),
       (("E", r), SVal.num (if 0 < (numericVals c.series).length then
          listMax (numericVals c.series) else 0)),
       (("F", r), SVal.num (if 0 < (numericVals c.series).length then
          listSum (numericVals c.series) else 0))]
    ∧ (numericVals c.series ≠ [] →
        listMin (numericVals c.series) ∈ numericVals c.series
        ∧ listMax (numericVals c.series) ∈ numericVals c.series
        ∧ ∀ y ∈ numericVals c.series,
            listMin (numericVals c.series) ≤ y ∧ y ≤ listMax (numericVals c.series)) := by
  have hc := nonNullCount_eq_numericVals_length h
  refine ⟨hc, ?_, ?_⟩
  · unfold statLine seriesMean
    rw [hc]
  · intro hne
    exact ⟨listMin_mem hne, listMax_mem hne,
      fun y hy => ⟨listMin_le hy, listMax_le hy⟩⟩

/-- Witness for the row-value theorem at the concrete column `statColW`
(one value 1000 and one missing cell), with its well-formedness hypothesis
discharged by evaluation. -/
theorem numeric_stats_row_values_witness :
    NumColWF statColW
    ∧ (nonNullCount statColW.series = (numericVals statColW.series).length
      ∧ statLine statColW 12 =
        [(("A", 12), SVal.str statColW.name),
         (("B", 12), SVal.num ((numericVals statColW.series).length : ℚ)),
         (("C", 12), SVal.num (if 0 < (numericVals statColW.series).length then
            round2 (listSum (numericVals statColW.series)
              / ((numericVals statColW.series).length : ℚ))
          else 0)),
         (("D", 12), SVal.num (if 0 < (numericVals statColW.series).length then
            listMin (numericVals statColW.series) else 0)),
         (("E", 12), SVal.num (if 0 < (numericVals statColW.series).length then
            listMax (numericVals statColW.series) else 0)),
         (("F", 12), SVal.num (if 0 < (numericVals statColW.series).length then
            listSum (numericVals statColW.series) else 0))]
      ∧ (numericVals statColW.series ≠ [] →
          listMin (numericVals statColW.series) ∈ numericVals statColW.series
          ∧ listMax (numericVals statColW.series) ∈ numericVals statColW.series
          ∧ ∀ y ∈ numericVals statColW.series,
              listMin (numericVals statColW.series) ≤ y
              ∧ y ≤ listMax (numericVals statColW.series))) :=
  ⟨by unfold NumColWF; decide,
   numeric_stats_row_values statColW 12 (by unfold NumColWF; decide)⟩

/-! ## Helper lemmas: the statistics block and the bullet list -/

lemma mem_statLine_A_iff (c : Column) (r' r : Nat) (n : String) :
    ((("A", r), SVal.str n) ∈ statLine c r') ↔ (r = r' ∧ n = c.name) := by
  simp [statLine, Prod.ext_iff]

lemma exists_mem_statLines_A_iff (sel : List String) (n : String) :
    ∀ (cols : List Column) (r0 : Nat),
      (∃ r, (("A", r), SVal.str n) ∈ (statLines sel cols r0).1) ↔
        ∃ c ∈ cols, includeCol sel c.name = true ∧ c.name = n := by
  intro cols
  induction cols with
  | nil => intro r0; simp [statLines]
  | cons c cs ih =>
    intro r0
    by_cases hc : includeCol sel c.name
    · simp only [statLines, hc, if_true, List.mem_append]
      constructor
      · rintro ⟨r, h | h⟩
        · rcases (mem_statLine_A_iff c (r0 + 1) r n).mp h with ⟨_, hn⟩
          exact ⟨c, List.mem_cons_self c cs, hc, hn.symm⟩
        · rcases (ih (r0 + 1)).mp ⟨r, h⟩ with ⟨d, hd, hinc, hn⟩
          exact ⟨d, List.mem_cons_of_mem c hd, hinc, hn⟩
      · rintro ⟨d, hd, hinc, hn⟩
        rcases List.mem_cons.mp hd with rfl | hd'
        · exact ⟨r0 + 1, Or.inl ((mem_statLine_A_iff d (r0 + 1) (r0 + 1) n).mpr ⟨rfl, hn.symm⟩)⟩
        · rcases (ih (r0 + 1)).mpr ⟨d, hd', hinc, hn⟩ with ⟨r, h⟩
          exact ⟨r, Or.inr h⟩
    · simp only [statLines]
      rw [if_neg hc, ih r0]
      constructor
      · rintro ⟨d, hd, hinc, hn⟩
        exact ⟨d, List.mem_cons_of_mem c hd, hinc, hn⟩
      · rintro ⟨d, hd, hinc, hn⟩
        rcases List.mem_cons.mp hd with rfl | hd'
        · exact absurd hinc hc
        · exact ⟨d, hd', hinc, hn⟩

lemma includeCol_iff (sel : List String) (n : String) :
    includeCol sel n = true ↔ (sel = [] ∨ n ∈ sel) := by
  simp [includeCol, or_comm]

lemma bulletCells_snd : ∀ (sel : List String) (r : Nat),
    (bulletCells sel r).map Prod.snd = sel.map (fun s => SVal.str ("• " ++ s)) := by
  intro sel
  induction sel with
  | nil => intro r; rfl
  | cons s ss ih => intro r; simp [bulletCells, ih (r + 1)]

/-- C1: a numeric column of the table gets a statistics data row (an
"A"-cell carrying its name in the statistics block) exactly when the
selection is empty or contains its name; every supplied selection entry
gets a bullet cell, whether or not it names a numeric column; and the
operation's return value depends only on the I/O steps, so a selection
naming no numeric column still returns true when open and save succeed. -/
theorem stats_rows_follow_selection
    (data : DataFrame) (sel : List String) (r0 : Nat) (n : String)
    (fs : FS) (path : String) :
    ((∃ r, (("A", r), SVal.str n) ∈ (statLines sel (numericCols data) r0).1) ↔
      ((∃ c ∈ numericCols data, c.name = n) ∧ (sel = [] ∨ n ∈ sel)))
    ∧ ((bulletCells sel 4).map Prod.snd = sel.map (fun s => SVal.str ("• " ++ s)))
    ∧ ((create_statistics_sheet fs path data sel).2
        = (fs.readOk && (lookupFile fs.files path).isSome && fs.writeOk)) := by
  refine ⟨?_, bulletCells_snd sel 4, create_snd_eq fs path data sel⟩
  rw [exists_mem_statLines_A_iff]
  constructor
  · rintro ⟨c, hc, hinc, rfl⟩
    exact ⟨⟨c, hc, rfl⟩, (includeCol_iff sel c.name).mp hinc⟩
  · rintro ⟨⟨c, hc, rfl⟩, hsel⟩
    exact ⟨c, hc, (includeCol_iff sel c.name).mpr hsel, rfl⟩

/-! ## Helper lemmas: membership in the rendered sheet -/

lemma bullet_starts (s : String) : ("• " ++ s).data.take 2 = ['•', ' '] := by
  rw [String.data_append]
  rfl

lemma mem_bulletCells : ∀ (sel : List String) (r : Nat) (x : (String × Nat) × SVal),
    x ∈ bulletCells sel r → ∃ s ∈ sel, ∃ r', x = (("A", r'), SVal.str ("• " ++ s)) := by
  intro sel
  induction sel with
  | nil => intro r x hx; cases hx
  | cons s ss ih =>
    intro r x hx
    rcases List.mem_cons.mp hx with rfl | hx'
    · exact ⟨s, List.mem_cons_self s ss, r, rfl⟩
    · rcases ih (r + 1) x hx' with ⟨u, hu, r', he⟩
      exact ⟨u, List.mem_cons_of_mem s hu, r', he⟩

lemma statLines_fst_nil_iff (sel : List String) :
    ∀ (cols : List Column) (r0 : Nat),
      (statLines sel cols r0).1 = [] ↔
        cols.filter (fun c => includeCol sel c.name) = [] := by
  intro cols
  induction cols with
  | nil => intro r0; simp [statLines]
  | cons c cs ih =>
    intro r0
    by_cases hc : includeCol sel c.name
    · simp only [statLines, List.filter_cons, hc, if_true]
      simp [statLine]
    · simp only [statLines, List.filter_cons]
      rw [if_neg hc, if_neg hc, ih r0]

lemma not_mem_renderStats_A_str (data : DataFrame) (sel : List String)
    (t : String) (r : Nat)
    (hn : numericCols data = [])
    (hb : t.data.take 2 ≠ ['•', ' '])
    (h1 : t ≠ "Construction Project Statistics")
    (h2 : t ≠ "Selected Columns for Analysis:")
    (h3 : t ≠ "Basic Statistics:")
    (h4 : t ≠ "Total Records:")
    (h5 : t ≠ "Total Columns:")
    (h6 : t ≠ "Note: Graphs are generated in the web application based on selected columns.")
    (h7 : t ≠ "Use the PowerPoint export feature to generate presentation slides.") :
    (("A", r), SVal.str t) ∉ renderStats data sel := by
  intro hmem
  simp only [renderStats, hn] at hmem
  simp [h1, h2, h3, h4, h5, h6, h7, List.mem_append] at hmem
  rcases mem_bulletCells sel 4 _ hmem with ⟨u, _, r2, he⟩
  have ht : t = "• " ++ u := by
    have h2nd := congrArg Prod.snd he
    simpa using h2nd
  exact hb (by rw [ht]; exact bullet_starts u)

/-- C10: the "Numeric Column Statistics" section — its title and its
Column/Count/Mean/Min/Max/Sum header row — is rendered exactly when the
table has at least one numeric column, regardless of the selection; and
the data rows under it are empty exactly when no numeric column passes
the selection filter (so a non-empty selection matching nothing leaves
the title and header with zero data rows). -/
theorem numeric_section_iff_numeric_column
    (data : DataFrame) (sel : List String) (r0 : Nat) :
    ((∃ r, (("A", r), SVal.str "Numeric Column Statistics:") ∈ renderStats data sel)
      ↔ numericCols data ≠ [])
    ∧ ((∃ r, (("A", r), SVal.str "Column") ∈ renderStats data sel)
      ↔ numericCols data ≠ [])
    ∧ ((statLines sel (numericCols data) r0).1 = []
      ↔ (numericCols data).filter (fun c => includeCol sel c.name) = []) := by
  refine ⟨⟨?_, ?_⟩, ⟨?_, ?_⟩, statLines_fst_nil_iff sel (numericCols data) r0⟩
  · rintro ⟨r, hmem⟩ hn
    exact not_mem_renderStats_A_str data sel _ r hn (by decide) (by decide)
      (by decide) (by decide) (by decide) (by decide) (by decide) (by decide) hmem
  · intro hn
    have hlen : 0 < (numericCols data).length := List.length_pos.mpr hn
    refine ⟨4 + sel.length + 6, ?_⟩
    simp [renderStats, hlen, List.mem_append]
  · rintro ⟨r, hmem⟩ hn
    exact not_mem_renderStats_A_str data sel _ r hn (by decide) (by decide)
      (by decide) (by decide) (by decide) (by decide) (by decide) (by decide) hmem
  · intro hn
    have hlen : 0 < (numericCols data).length := List.length_pos.mpr hn
    refine ⟨4 + sel.length + 7, ?_⟩
    simp [renderStats, headerRow, hlen, List.mem_append]

/-! ## Helper lemmas: best-effort coercion -/

lemma tryMapCells_eq_none_of_mem {f : Cell → Option Cell} :
    ∀ {l : List Cell} {x : Cell}, x ∈ l → f x = none → tryMapCells f l = none := by
  intro l
  induction l with
  | nil => intro x hx; cases hx
  | cons a as ih =>
    intro x hx hfx
    rcases List.mem_cons.mp hx with rfl | hx'
    · simp [tryMapCells, hfx]
    · simp only [tryMapCells, ih hx' hfx]
      cases f a <;> rfl

/-- C5: coercion during cleaning is all-or-nothing per column, for both
conversions: `pd.to_datetime` / `pd.to_numeric` either convert every cell
of the series (retyping it) or return the series untouched, the per-column
loop steps either replace the whole series or keep the column, and a
date/time-named column in which any cell fails to parse is left entirely
unchanged (and no error is raised: all functions are total). -/
theorem coercion_all_or_nothing
    (p q : Cell → Option Cell) (df : DataFrame) (c d : Column)
    (hdate : isDateName d.name = true)
    (hfail : ∃ x ∈ d.series.cells, parseCellD p x = none) :
    _clean_dataframe p q df
      = ((dropColsAllNull (dropRowsAllNull df)).map (dateColStep p)).map (numColStep q)
    ∧ (pd_to_datetime p c.series = c.series
        ∨ ((pd_to_datetime p c.series).dtype = Dtype.datetime
          ∧ tryMapCells (parseCellD p) c.series.cells
              = some (pd_to_datetime p c.series).cells))
    ∧ (pd_to_numeric q c.series = c.series
        ∨ ((pd_to_numeric q c.series).dtype = Dtype.numeric
          ∧ tryMapCells (parseCellD q) c.series.cells
              = some (pd_to_numeric q c.series).cells))
    ∧ (dateColStep p c = c ∨ dateColStep p c = ⟨c.name, pd_to_datetime p c.series⟩)
    ∧ (numColStep q c = c ∨ numColStep q c = ⟨c.name, pd_to_numeric q c.series⟩)
    ∧ dateColStep p d = d := by
  refine ⟨rfl, ?_, ?_, ?_, ?_, ?_⟩
  · unfold pd_to_datetime
    cases h : tryMapCells (parseCellD p) c.series.cells with
    | none => exact Or.inl rfl
    | some cs => exact Or.inr ⟨rfl, rfl⟩
  · unfold pd_to_numeric
    cases h : tryMapCells (parseCellD q) c.series.cells with
    | none => exact Or.inl rfl
    | some cs => exact Or.inr ⟨rfl, rfl⟩
  · unfold dateColStep
    by_cases h : isDateName c.name = true
    · rw [if_pos h]; exact Or.inr rfl
    · rw [if_neg h]; exact Or.inl rfl
  · unfold numColStep
    by_cases h : c.series.dtype = Dtype.object
    · rw [if_pos h]
      by_cases he : pd_to_numeric q c.series = c.series
      · simp only [he, if_pos rfl]
        exact Or.inl rfl
      · rw [if_neg he]
        exact Or.inr rfl
    · rw [if_neg h]
      exact Or.inl rfl
  · obtain ⟨x, hx, hfx⟩ := hfail
    have hnone : pd_to_datetime p d.series = d.series := by
      unfold pd_to_datetime
      rw [tryMapCells_eq_none_of_mem hx hfx]
    cases d with
    | mk nm s => simp [dateColStep, hdate, hnone]

/-- Witness for the all-or-nothing coercion theorem: under the sample
parsers, the date-named column `dateColW` has a failing cell and is left
unchanged by the date-conversion step. -/
theorem coercion_all_or_nothing_witness :
    isDateName dateColW.name = true
    ∧ (∃ x ∈ dateColW.series.cells, parseCellD pSample x = none)
    ∧ dateColStep pSample dateColW = dateColW :=
  ⟨by decide, by decide,
   (coercion_all_or_nothing pSample qSample dfW textColW dateColW
      (by decide) (by decide)).2.2.2.2.2⟩

/-- C6: in the numeric-conversion loop a free-form text (`object`-typed)
column is replaced only when the converted series differs from the
original (pandas `Series.equals`: same dtype and same values); a
conversion that would be a no-op leaves the column as text. -/
theorem numeric_coercion_only_if_changes
    (p q : Cell → Option Cell) (df : DataFrame) (c d : Column)
    (hc : c.series.dtype = Dtype.object)
    (hnoop : pd_to_numeric q c.series = c.series)
    (hd : d.series.dtype = Dtype.object) :
    numColStep q c = c
    ∧ (numColStep q d = d
        ∨ ((numColStep q d).series = pd_to_numeric q d.series
          ∧ pd_to_numeric q d.series ≠ d.series))
    ∧ _clean_dataframe p q df
        = ((dropColsAllNull (dropRowsAllNull df)).map (dateColStep p)).map (numColStep q) := by
  refine ⟨?_, ?_, rfl⟩
  · simp [numColStep, hc, hnoop]
  · by_cases hn : pd_to_numeric q d.series = d.series
    · exact Or.inl (by simp [numColStep, hd, hn])
    · refine Or.inr ⟨?_, hn⟩
      simp [numColStep, hd, hn]

/-- Witness for the no-op-conversion theorem: `textColW` (all text, no
numeric cell parses) is left as text, while `numTextColW` (all cells
parse) is genuinely converted. -/
theorem numeric_coercion_only_if_changes_witness :
    textColW.series.dtype = Dtype.object
    ∧ pd_to_numeric qSample textColW.series = textColW.series
    ∧ numColStep qSample textColW = textColW
    ∧ (numColStep qSample numTextColW = numTextColW
        ∨ ((numColStep qSample numTextColW).series = pd_to_numeric qSample numTextColW.series
          ∧ pd_to_numeric qSample numTextColW.series ≠ numTextColW.series)) :=
  ⟨by decide, by decide,
   (numeric_coercion_only_if_changes pSample qSample dfW textColW numTextColW
      (by decide) (by decide) (by decide)).1,
   (numeric_coercion_only_if_changes pSample qSample dfW textColW numTextColW
      (by decide) (by decide) (by decide)).2.1⟩

/-! ## Helper lemmas: the cleaning invariant -/

lemma isNullCell_eq_false_iff (x : Cell) : isNullCell x = false ↔ x ≠ Cell.null := by
  cases x <;> simp [isNullCell]

lemma parseCellD_preserves {f : Cell → Option Cell} (hf : PreservesNonNull f) :
    ∀ {x y : Cell}, parseCellD f x = some y → isNullCell y = isNullCell x := by
  intro x y h
  cases x with
  | null =>
    simp only [parseCellD, Option.some.injEq] at h
    subst h
    rfl
  | num v =>
    have hy : y ≠ Cell.null := hf _ _ h (by simp)
    rw [(isNullCell_eq_false_iff y).mpr hy]
    rfl
  | str u =>
    have hy : y ≠ Cell.null := hf _ _ h (by simp)
    rw [(isNullCell_eq_false_iff y).mpr hy]
    rfl
  | date d =>
    have hy : y ≠ Cell.null := hf _ _ h (by simp)
    rw [(isNullCell_eq_false_iff y).mpr hy]
    rfl

lemma tryMapCells_nullSame {f : Cell → Option Cell} (hf : PreservesNonNull f) :
    ∀ {l l' : List Cell}, tryMapCells (parseCellD f) l = some l' →
      l'.length = l.length
      ∧ ∀ i, isNullCell (l'.getD i Cell.null) = isNullCell (l.getD i Cell.null) := by
  intro l
  induction l with
  | nil =>
    intro l' h
    simp only [tryMapCells, Option.some.injEq] at h
    subst h
    exact ⟨rfl, fun i => rfl⟩
  | cons a as ih =>
    intro l' h
    simp only [tryMapCells] at h
    cases ha : parseCellD f a with
    | none => rw [ha] at h; simp at h
    | some a' =>
      cases has : tryMapCells (parseCellD f) as with
      | none => rw [ha, has] at h; simp at h
      | some as' =>
        rw [ha, has] at h
        simp only [Option.some.injEq] at h
        subst h
        obtain ⟨hl, hp⟩ := ih has
        refine ⟨by simp [hl], ?_⟩
        intro i
        cases i with
        | zero => simpa using parseCellD_preserves hf ha
        | succ n => simpa using hp n

lemma nullSame_refl (s : Series) : NullSame s s := ⟨rfl, fun _ => rfl⟩

lemma pd_to_datetime_nullSame {p : Cell → Option Cell} (hp : PreservesNonNull p)
    (s : Series) : NullSame s (pd_to_datetime p s) := by
  unfold pd_to_datetime
  cases h : tryMapCells (parseCellD p) s.cells with
  | none => exact nullSame_refl s
  | some cs => exact tryMapCells_nullSame hp h

lemma pd_to_numeric_nullSame {q : Cell → Option Cell} (hq : PreservesNonNull q)
    (s : Series) : NullSame s (pd_to_numeric q s) := by
  unfold pd_to_numeric
  cases h : tryMapCells (parseCellD q) s.cells with
  | none => exact nullSame_refl s
  | some cs => exact tryMapCells_nullSame hq h

lemma dateColStep_nullSame {p : Cell → Option Cell} (hp : PreservesNonNull p)
    (c : Column) : NullSame c.series (dateColStep p c).series := by
  unfold dateColStep
  by_cases h : isDateName c.name = true
  · rw [if_pos h]
    exact pd_to_datetime_nullSame hp c.series
  · rw [if_neg h]
    exact nullSame_refl _

lemma numColStep_nullSame {q : Cell → Option Cell} (hq : PreservesNonNull q)
    (c : Column) : NullSame c.series (numColStep q c).series := by
  unfold numColStep
  by_cases h : c.series.dtype = Dtype.object
  · rw [if_pos h]
    by_cases he : pd_to_numeric q c.series = c.series
    · simp only [he, if_pos rfl]
      exact nullSame_refl _
    · rw [if_neg he]
      exact pd_to_numeric_nullSame hq c.series
  · rw [if_neg h]
    exact nullSame_refl _

lemma all_isNull_iff_getD (l : List Cell) :
    l.all isNullCell = true ↔ ∀ i, isNullCell (l.getD i Cell.null) = true := by
  rw [List.all_eq_true]
  constructor
  · intro h i
    by_cases hi : i < l.length
    · rw [List.getD_eq_getElem?_getD, List.getElem?_eq_getElem hi]
      exact h _ (List.getElem_mem hi)
    · rw [List.getD_eq_default _ _ (Nat.le_of_not_lt hi)]
      rfl
  · intro h x hx
    obtain ⟨i, hi, rfl⟩ := List.mem_iff_getElem.mp hx
    have hgi := h i
    rwa [List.getD_eq_getElem?_getD, List.getElem?_eq_getElem hi] at hgi

lemma colAllNull_eq_of_nullSame {s t : Series} (h : NullSame s t) :
    t.cells.all isNullCell = s.cells.all isNullCell := by
  apply Bool.eq_iff_iff.mpr
  rw [all_isNull_iff_getD, all_isNull_iff_getD]
  constructor
  · intro ht i
    rw [← h.2 i]
    exact ht i
  · intro hs i
    rw [h.2 i]
    exact hs i

lemma rowAllNull_eq_false_iff (df : DataFrame) (j : Nat) :
    rowAllNull df j = false ↔
      ∃ c ∈ df, isNullCell (c.series.cells.getD j Cell.null) = false := by
  rw [rowAllNull, List.all_eq_false]
  simp [Bool.not_eq_true]

lemma rowAllNull_dropRows (df : DataFrame) {j : Nat}
    (hj : j < (keepRows df).length) :
    rowAllNull (dropRowsAllNull df) j = false := by
  have himem : (keepRows df).get ⟨j, hj⟩ ∈ keepRows df := List.get_mem _ _ _
  have hrow : rowAllNull df ((keepRows df).get ⟨j, hj⟩) = false := by
    have hfil := (List.mem_filter.mp himem).2
    simpa using hfil
  rcases (rowAllNull_eq_false_iff df _).mp hrow with ⟨c, hc, hcell⟩
  apply (rowAllNull_eq_false_iff _ j).mpr
  refine ⟨⟨c.name, ⟨c.series.dtype,
    (keepRows df).map fun i => c.series.cells.getD i Cell.null⟩⟩,
    List.mem_map.mpr ⟨c, hc, rfl⟩, ?_⟩
  show isNullCell (((keepRows df).map
    fun i => c.series.cells.getD i Cell.null).getD j Cell.null) = false
  rw [List.getD_eq_getElem?_getD, List.getElem?_map, List.getElem?_eq_getElem hj]
  simpa [List.get_eq_getElem] using hcell

lemma colAllNull_eq_false_of_cell {c : Column} {j : Nat}
    (h : isNullCell (c.series.cells.getD j Cell.null) = false) :
    colAllNull c = false := by
  rw [colAllNull, Bool.eq_false_iff]
  intro hall
  have hgi := (all_isNull_iff_getD c.series.cells).mp hall j
  rw [h] at hgi
  simp at hgi

lemma rowAllNull_dropCols {df1 : DataFrame} {j : Nat}
    (h : rowAllNull df1 j = false) :
    rowAllNull (dropColsAllNull df1) j = false := by
  rcases (rowAllNull_eq_false_iff df1 j).mp h with ⟨c, hc, hcell⟩
  apply (rowAllNull_eq_false_iff _ j).mpr
  refine ⟨c, List.mem_filter.mpr ⟨hc, ?_⟩, hcell⟩
  simp [colAllNull_eq_false_of_cell hcell]

lemma rowAllNull_map_of_nullSame {df : DataFrame} {F : Column → Column}
    (hF : ∀ c, NullSame c.series (F c).series) (j : Nat) :
    rowAllNull (df.map F) j = rowAllNull df j := by
  rw [rowAllNull, rowAllNull, List.all_map]
  congr 1
  funext c
  exact (hF c).2 j

lemma cells_length_dropRows {df : DataFrame} {c' : Column}
    (hc' : c' ∈ dropRowsAllNull df) :
    c'.series.cells.length = (keepRows df).length := by
  rcases List.mem_map.mp hc' with ⟨c, _, rfl⟩
  simp

lemma nrows_eq {df : DataFrame} {n : Nat} (hne : df ≠ [])
    (h : ∀ c ∈ df, c.series.cells.length = n) : nrows df = n := by
  cases df with
  | nil => exact absurd rfl hne
  | cons c cs => exact h c (List.mem_cons_self c cs)

lemma pSample_preserves : PreservesNonNull pSample := by
  intro x y hxy hx
  cases x with
  | null => exact absurd rfl hx
  | num v =>
    simp only [pSample, Option.some.injEq] at hxy
    subst hxy
    simp
  | str s =>
    simp only [pSample] at hxy
    split at hxy
    · simp only [Option.some.injEq] at hxy
      subst hxy
      simp
    · simp at hxy
  | date d =>
    simp only [pSample, Option.some.injEq] at hxy
    subst hxy
    simp

lemma qSample_preserves : PreservesNonNull qSample := by
  intro x y hxy hx
  cases x with
  | null => exact absurd rfl hx
  | num v =>
    simp only [qSample, Option.some.injEq] at hxy
    subst hxy
    simp
  | str s =>
    simp only [qSample] at hxy
    split at hxy
    · simp only [Option.some.injEq] at hxy
      subst hxy
      simp
    · simp at hxy
  | date d => simp [qSample] at hxy

/-- C4: provided the library's cell parsers never turn a present value
into a missing one (they either convert it or fail, which is how
`to_numeric` / `to_datetime` report unconvertible cells), every table
produced by `_clean_dataframe` has no entirely-null column and no
entirely-null row: the dropna steps remove them and the coercion steps
preserve the missing-value pattern. -/
theorem cleaned_table_has_no_all_null_row_or_column
    (p q : Cell → Option Cell) (df : DataFrame) (c : Column) (j : Nat)
    (hp : PreservesNonNull p) (hq : PreservesNonNull q)
    (hc : c ∈ _clean_dataframe p q df)
    (hj : j < nrows (_clean_dataframe p q df)) :
    colAllNull c = false ∧ rowAllNull (_clean_dataframe p q df) j = false := by
  have hclean : _clean_dataframe p q df
      = ((dropColsAllNull (dropRowsAllNull df)).map (dateColStep p)).map (numColStep q) := rfl
  constructor
  · rw [hclean] at hc
    rcases List.mem_map.mp hc with ⟨c1, hc1, rfl⟩
    rcases List.mem_map.mp hc1 with ⟨c2, hc2, rfl⟩
    have e1 : colAllNull (numColStep q (dateColStep p c2))
        = colAllNull (dateColStep p c2) :=
      colAllNull_eq_of_nullSame (numColStep_nullSame hq _)
    have e2 : colAllNull (dateColStep p c2) = colAllNull c2 :=
      colAllNull_eq_of_nullSame (dateColStep_nullSame hp _)
    rw [e1, e2]
    have hfil := (List.mem_filter.mp hc2).2
    simpa using hfil
  · by_cases hne : _clean_dataframe p q df = []
    · rw [hne] at hj
      simp [nrows] at hj
    · have hlen : ∀ c' ∈ _clean_dataframe p q df,
          c'.series.cells.length = (keepRows df).length := by
        intro c' hc'
        rw [hclean] at hc'
        rcases List.mem_map.mp hc' with ⟨c1, hc1, rfl⟩
        rcases List.mem_map.mp hc1 with ⟨c2, hc2, rfl⟩
        have l1 : (numColStep q (dateColStep p c2)).series.cells.length
            = (dateColStep p c2).series.cells.length :=
          (numColStep_nullSame hq _).1
        have l2 : (dateColStep p c2).series.cells.length
            = c2.series.cells.length :=
          (dateColStep_nullSame hp _).1
        rw [l1, l2]
        exact cells_length_dropRows (List.mem_filter.mp hc2).1
      have hn : nrows (_clean_dataframe p q df) = (keepRows df).length :=
        nrows_eq hne hlen
      rw [hn] at hj
      have h1 : rowAllNull (dropRowsAllNull df) j = false :=
        rowAllNull_dropRows df hj
      have h2 : rowAllNull (dropColsAllNull (dropRowsAllNull df)) j = false :=
        rowAllNull_dropCols h1
      rw [hclean,
        rowAllNull_map_of_nullSame (fun c => numColStep_nullSame hq c) j,
        rowAllNull_map_of_nullSame (fun c => dateColStep_nullSame hp c) j]
      exact h2

/-- Witness for the cleaning invariant, at the concrete dataframe `dfW`
(whose last two rows are entirely null) under the sample parsers. -/
theorem cleaned_table_has_no_all_null_row_or_column_witness :
    PreservesNonNull pSample ∧ PreservesNonNull qSample
    ∧ (colAllNull cleanColW = false
      ∧ rowAllNull (_clean_dataframe pSample qSample dfW) 0 = false) :=
  ⟨pSample_preserves, qSample_preserves,
   cleaned_table_has_no_all_null_row_or_column pSample qSample dfW cleanColW 0
     pSample_preserves qSample_preserves (by decide) (by decide)⟩
